import Mathlib

/-!
Verification development for the Modbus TCP diagnostic client (src/modbus.py).

The Python source is shallowly embedded: pure helpers become Lean functions,
the pymodbus client is an oracle from issued requests to responses, exceptions
become `Except`, and the asyncio probe scheduler becomes a step relation.
Where a claim concerns the protocol engine that the source delegates to the
external pymodbus library (frame encoding/decoding), the missing code is
modelled from the spec, and the corresponding definitions say so in their
doc comments.
-/

/-- A Python value as it flows through the data-formatting paths of the
script: booleans, integers, strings, and (heterogeneous) lists. -/
inductive PyVal where
  | pyBool (b : Bool)
  | pyInt (n : Int)
  | pyStr (s : String)
  | pyList (xs : List PyVal)

/-- Python truthiness (`bool(v)`) for the values above: a string is truthy
iff nonempty, an int iff nonzero, a list iff nonempty. -/
def pyTruthy : PyVal → Bool
  | .pyBool b => b
  | .pyInt n => decide (n ≠ 0)
  | .pyStr s => !s.data.isEmpty
  | .pyList xs => !xs.isEmpty

/-- Python iteration (`for x in v`): a list yields its elements, a string
yields its characters as one-character strings. The remaining cases raise
TypeError in Python and are unreachable in the modelled call sites; they
are mapped to the empty iteration. -/
def pyIter : PyVal → List PyVal
  | .pyList xs => xs
  | .pyStr s => s.data.map (fun c => .pyStr (String.mk [c]))
  | _ => []

/-- The register-type strings offered by the script (src/modbus.py line 45). -/
def register_types : List String :=
  ["coils", "discrete_inputs", "input_registers", "holding_registers", "all"]

/-- `format_data` (src/modbus.py lines 241-248): for bit spaces it maps each
element of `data` through `bool(_)` (iterating strings character-wise); for
word spaces it returns `data` if it is a list and wraps it in a singleton
list otherwise; any other register type passes `data` through. -/
def format_data (register_type : String) (data : PyVal) : PyVal :=
  if register_type = "coils" ∨ register_type = "discrete_inputs" then
    .pyList ((pyIter data).map (fun v => .pyBool (pyTruthy v)))
  else if register_type = "input_registers" ∨ register_type = "holding_registers" then
    match data with
    | .pyList _ => data
    | _ => .pyList [data]
  else data

/-- Outcome of one pymodbus read call as the script observes it: `success d`
carries the `.bits` / `.registers` attribute (a Python list) when
`response.isError()` is false; `failure` is any response with
`isError()` true (Modbus exception response or I/O error object). -/
inductive ReadResult where
  | success (data : PyVal)
  | failure

/-- The pymodbus client as an oracle: each typed read maps
(address, count, unit) to the observed result. -/
structure ModbusReadClient where
  read_coils : Nat → Nat → Nat → ReadResult
  read_discrete_inputs : Nat → Nat → Nat → ReadResult
  read_input_registers : Nat → Nat → Nat → ReadResult
  read_holding_registers : Nat → Nat → Nat → ReadResult

/-- `read_all_data` (src/modbus.py lines 256-299), restricted to the records
it builds and exports: it reads fixed windows (128 coils at 0, 128 discrete
inputs at 0, 100 input registers at 0, 100 holding registers at 0); each
space's record is computed from that space's response alone, with an
error-description string substituted when the response `isError()`, and the
substitute is then passed through `format_data` exactly as the data would be.
The four records are the rows saved to CSV/JSON. -/
def read_all_data (client : ModbusReadClient) (unit_id : Nat) : List (String × PyVal) :=
  let coils_data := format_data "coils"
    (match client.read_coils 0 128 unit_id with
     | .success d => d
     | .failure => .pyStr "Error reading coils")
  let discrete_inputs_data := format_data "discrete_inputs"
    (match client.read_discrete_inputs 0 128 unit_id with
     | .success d => d
     | .failure => .pyStr "Error reading discrete inputs")
  let input_registers_data := format_data "input_registers"
    (match client.read_input_registers 0 100 unit_id with
     | .success d => d
     | .failure => .pyStr "Error reading input registers")
  let holding_registers_data := format_data "holding_registers"
    (match client.read_holding_registers 0 100 unit_id with
     | .success d => d
     | .failure => .pyStr "Error reading holding registers")
  [("Coils", coils_data),
   ("Discrete Inputs", discrete_inputs_data),
   ("Input Registers", input_registers_data),
   ("Holding Registers", holding_registers_data)]

/-- A read request issued by the script, identifying the register space and
the (address, count, unit) arguments of the pymodbus call. -/
structure ReadRequest where
  register_space : String
  address : Nat
  count : Nat
  unit : Nat
deriving DecidableEq

/-- Outcome of one probe read through pymodbus: a normal response carrying
register values, a Modbus exception response (function code with high bit
set, carrying the device exception code), or an I/O failure (timeout /
connection error / raised exception inside the probe body). -/
inductive ProbeResponse where
  | success (regs : List Nat)
  | exception (code : Nat)
  | ioFailure
deriving DecidableEq

/-- `response.isError()` as pymodbus computes it for the outcomes above: an
exception response has its function code's high bit set and is an error;
an I/O failure object is an error; only a normal response is not. -/
def ProbeResponse.isError : ProbeResponse → Bool
  | .success _ => false
  | .exception _ => true
  | .ioFailure => true

/-- The single read issued by one unit-ID probe (src/modbus.py line 339):
`client.read_input_registers(0, 1, unit=unit_id)`. -/
def probeRequest (unit_id : Nat) : ReadRequest :=
  { register_space := "input_registers", address := 0, count := 1, unit := unit_id }

/-- The inclusive unit-ID range `range(from_unit, to_unit + 1)` scanned by
`scan_modbus_unit_ids` (src/modbus.py line 353). -/
def unitRange (from_unit to_unit : Nat) : List Nat :=
  (List.range (to_unit + 1 - from_unit)).map (fun i => from_unit + i)

/-- The result set of `scan_modbus_unit_ids` / `scan_modbus_unit_ids_async`
(src/modbus.py lines 334-357) when the scan runs to completion: one probe per
unit id in `[from_unit, to_unit]`, each opening its own fresh client
(`get_modbus_client` inside the probe body), issuing `probeRequest unit_id`,
and appending `unit_id` to the results iff `not request.isError()`. The
device is an oracle from the issued request to the observed response; the
host/port arguments select the device and are absorbed into the oracle, and
the `timeout` parameter of the source function is never used by it. The
claim about membership is order-insensitive (the collection is a result
set), so the concurrent append is modelled by this filter. -/
def scan_modbus_unit_ids (from_unit to_unit : Nat)
    (device : ReadRequest → ProbeResponse) : List Nat :=
  (unitRange from_unit to_unit).filter (fun u => !(device (probeRequest u)).isError)

/-- The argparse default for `--max-concurrent-tasks` (src/modbus.py
line 405). -/
def default_max_concurrent_tasks : Nat := 10

/-- State of the probe scheduler: how many probe tasks have not yet been
let through by the semaphore, how many are inside the `async with semaphore`
block (connection open / probing — "in flight"), and how many have finished.
Modelled from src/modbus.py lines 334-344, where the semaphore guards the
whole probe body including `client.connect()`. -/
structure SchedState where
  waiting : Nat
  inFlight : Nat
  finished : Nat
deriving DecidableEq

/-- One transition of the asyncio scheduler running the probe tasks with
`asyncio.Semaphore cap` (src/modbus.py lines 346-357): a waiting task is
let in only when fewer than `cap` tasks are in flight (the semaphore
acquire), and an in-flight task may finish, releasing its slot. -/
inductive SchedStep (cap : Nat) : SchedState → SchedState → Prop where
  | enter (w i f : Nat) : i < cap → SchedStep cap ⟨w + 1, i, f⟩ ⟨w, i + 1, f⟩
  | finish (w i f : Nat) : SchedStep cap ⟨w, i + 1, f⟩ ⟨w, i, f + 1⟩

/-- Scheduler states reachable from the start of a scan of `n` probe tasks
with semaphore capacity `cap`: all tasks waiting, none in flight. -/
inductive SchedReachable (cap n : Nat) : SchedState → Prop where
  | init : SchedReachable cap n ⟨n, 0, 0⟩
  | step (s t : SchedState) :
      SchedReachable cap n s → SchedStep cap s t → SchedReachable cap n t

/-- Modelled execution of `scan_modbus_unit_ids` under a user interrupt
(src/modbus.py lines 356-366): `completed` is the order in which probe tasks
complete on the event loop; a `KeyboardInterrupt` delivered after `k`
completions is caught by the `except KeyboardInterrupt` handler, so the
function returns normally with the results accumulated by the first `k`
completed probes (each appended iff its response was not an error);
no further probe contributes. -/
def scan_interrupted (completed : List Nat) (k : Nat)
    (device : ReadRequest → ProbeResponse) : List Nat :=
  (completed.take k).filter (fun u => !(device (probeRequest u)).isError)

/-- The persistence step after the scan loop (src/modbus.py lines 361-366):
the accumulated results are saved to JSON iff nonempty. -/
def scan_persisted (results : List Nat) : Option (List Nat) :=
  if results.isEmpty then none else some results

/-- Modelled from the spec (§7): the error taxonomy of the protocol engine,
which the source delegates to the external pymodbus library. -/
inductive ModbusError where
  | invalidArgument
  | connectionFailed
  | timeout
  | malformedFrame
  | protocolException (code : Nat)
deriving DecidableEq

/-- Modelled from the spec (§4.1): big-endian 16-bit serialization used by
the Frame Codec; values are reduced modulo 2^16 byte-wise. -/
def u16be (n : Nat) : List Nat := [n / 256 % 256, n % 256]

/-- Modelled from the spec (§4.1): the value of one byte holding up to 8
coil booleans, LSB first. -/
def byteOfBits (bs : List Bool) : Nat :=
  (bs.take 8).foldr (fun b acc => acc * 2 + (if b then 1 else 0)) 0

/-- Modelled from the spec (§4.1): pack 8 booleans per byte, LSB first,
zero-padding the final byte. -/
def packBits (bs : List Bool) : List Nat :=
  (List.range ((bs.length + 7) / 8)).map (fun i => byteOfBits (bs.drop (8 * i)))

/-- Modelled from the spec (§3): the function-specific part of a request —
a read quantity, or the values of a write. -/
inductive Payload where
  | readQuantity (quantity : Nat)
  | writeCoilValues (values : List Bool)
  | writeRegisterValues (values : List Nat)
deriving DecidableEq

/-- Modelled from the spec (§3): a domain request
{transactionId, unitId, functionCode, address, quantityOrValues}. -/
structure Request where
  transactionId : Nat
  unitId : Nat
  functionCode : Nat
  address : Nat
  payload : Payload
deriving DecidableEq

/-- Modelled from the spec (§4.1): the per-request quantity bounds — function
codes 1/2 (coils, discrete inputs) allow 1–2000 items, codes 3/4 (holding,
input registers) allow 1–125. -/
def quantityInBounds (fc q : Nat) : Bool :=
  if fc = 1 ∨ fc = 2 then decide (1 ≤ q ∧ q ≤ 2000)
  else if fc = 3 ∨ fc = 4 then decide (1 ≤ q ∧ q ≤ 125)
  else true

/-- Modelled from the spec (§4.1): the function-specific payload bytes after
the address — quantity:2 for reads, packed bits or big-endian words for
writes. -/
def payloadBytes : Payload → List Nat
  | .readQuantity q => u16be q
  | .writeCoilValues vs => packBits vs
  | .writeRegisterValues vs => (vs.map u16be).flatten

/-- Modelled from the spec (§4.1): the full wire frame of a request — 7-byte
MBAP header (transactionId:2, protocolId:2 fixed 0, length:2, unitId:1),
function code, address:2, then the function-specific payload. The length
field counts the bytes after itself: unitId, function code, address and
payload. -/
def frameBytes (req : Request) : List Nat :=
  u16be req.transactionId ++ u16be 0 ++
    u16be (4 + (payloadBytes req.payload).length) ++
    [req.unitId, req.functionCode] ++ u16be req.address ++ payloadBytes req.payload

/-- Modelled from the spec (§4.1 `encodeRequest`): encoding validates the
read quantity against the per-request bounds and MUST fail with
`InvalidArgument` on a violation instead of sending or silently truncating;
otherwise it produces the wire frame. -/
def encodeRequest (req : Request) : Except ModbusError (List Nat) :=
  match req.payload with
  | .readQuantity q =>
      if quantityInBounds req.functionCode q then .ok (frameBytes req)
      else .error .invalidArgument
  | _ => .ok (frameBytes req)

/-- Whether `encodeRequest` produced a frame. -/
def encodeOk (req : Request) : Bool :=
  match encodeRequest req with
  | .ok _ => true
  | .error _ => false

/-- The header fields a decoded frame exposes, as required by the spec's §8
round-trip property (transactionId, unitId, functionCode, address). -/
structure DecodedFrame where
  transactionId : Nat
  unitId : Nat
  functionCode : Nat
  address : Nat
deriving DecidableEq

/-- A decoded frame: a normal frame exposing the header fields and the
address (the first two payload bytes), or an exception frame carrying
`functionCode & 0x7F` and the exception code. -/
inductive Decoded where
  | normal (frame : DecodedFrame)
  | exceptionFrame (functionCode : Nat) (exceptionCode : Nat)
deriving DecidableEq

/-- Modelled from the spec (§4.2 `decodeFrame`): validates that the MBAP
length field matches the actual remaining byte count (fails with
`MalformedFrame` on mismatch); a function code with the high bit set decodes
as an exception frame carrying `code & 0x7F` and the 1-byte exception code;
otherwise the MBAP header fields and the address (first two payload bytes,
big-endian) are exposed. -/
def decodeFrame (frame : List Nat) : Except ModbusError Decoded :=
  match frame with
  | t1 :: t0 :: _p1 :: _p0 :: l1 :: l0 :: u :: fc :: rest =>
      if l1 * 256 + l0 ≠ 2 + rest.length then .error .malformedFrame
      else if 128 ≤ fc then
        match rest with
        | ec :: _ => .ok (.exceptionFrame (fc % 128) ec)
        | [] => .error .malformedFrame
      else
        match rest with
        | a1 :: a0 :: _ => .ok (.normal ⟨t1 * 256 + t0, u, fc, a1 * 256 + a0⟩)
        | _ => .error .malformedFrame
  | _ => .error .malformedFrame

/-- A valid request for the §8 round-trip property: header fields within
their wire widths, a function code without the exception bit, and a payload
the encoder accepts whose encoding keeps the MBAP length field within u16. -/
def validRequest (req : Request) : Prop :=
  req.transactionId < 65536 ∧ req.unitId < 256 ∧
    1 ≤ req.functionCode ∧ req.functionCode < 128 ∧ req.address < 65536 ∧
    (payloadBytes req.payload).length ≤ 65531 ∧
    (match req.payload with
     | .readQuantity q => quantityInBounds req.functionCode q = true
     | _ => True)

/-- A Python exception value as raised by the validation helpers. -/
inductive PyError where
  | valueError (msg : String)
deriving DecidableEq

/-- A device write as performed through the pymodbus client; producing such
an effect is the only way the script writes to the device. -/
inductive WriteEffect where
  | wroteCoils (address : Nat) (values : PyVal) (unit : Nat)
  | wroteRegisters (address : Nat) (values : PyVal) (unit : Nat)

/-- `write_registers` (src/modbus.py lines 71-77): dispatches on the register
type string; `"coils"` calls `client.write_coils`, `"holding_registers"`
calls `client.write_registers`, and any other type raises
`ValueError("Can only write to coils or holding registers")` before any
client call — an error result carries no write effect. -/
def write_registers (register_type : String) (address : Nat) (values : PyVal)
    (unit_id : Nat) : Except PyError WriteEffect :=
  if register_type = "coils" then .ok (.wroteCoils address values unit_id)
  else if register_type = "holding_registers" then
    .ok (.wroteRegisters address values unit_id)
  else .error (.valueError "Can only write to coils or holding registers")

/-- `validate_register_type` (src/modbus.py lines 79-85): for a read, the
type must be one of the five offered strings; for a write, it must be
`"coils"` or `"holding_registers"`; otherwise `ValueError` is raised. The
function never loops or prompts — it is a total function returning at once. -/
def validate_register_type (register_type action : String) : Except PyError Unit :=
  if action = "read" then
    if register_type ∈ register_types then .ok ()
    else .error (.valueError
      "Invalid register type. Must be one of: coils, discrete_inputs, input_registers, holding_registers, all")
  else if action = "write" then
    if register_type = "coils" ∨ register_type = "holding_registers" then .ok ()
    else .error (.valueError "Invalid register type. Must be one of: coils, holding_registers")
  else .ok ()

/-- ASCII whitespace as recognized by Python `str.split()` (the source's
inputs are keyboard text; other Unicode whitespace is not modelled). -/
def isPyWs (c : Char) : Bool :=
  c = ' ' ∨ c = '\t' ∨ c = '\n' ∨ c = '\r'

/-- Accumulator pass behind `str.split()`: splits on runs of whitespace,
dropping empty words. -/
def pySplitAux : List Char → List Char → List (List Char)
  | [], acc => if acc.isEmpty then [] else [acc.reverse]
  | c :: cs, acc =>
      if isPyWs c then
        (if acc.isEmpty then [] else [acc.reverse]) ++ pySplitAux cs []
      else pySplitAux cs (c :: acc)

/-- Python `data.split()` with no separator: whitespace-run splitting with
leading/trailing whitespace ignored. -/
def pySplit (s : String) : List String :=
  (pySplitAux s.data []).map String.mk

/-- Python `' '.join(words)`. -/
def joinWithSpace (words : List String) : String :=
  String.intercalate " " words

/-- The whitespace normalization the script applies to text destined for
holding registers: `' '.join(data.split())`. -/
def pyNormalize (data : String) : String :=
  joinWithSpace (pySplit data)

/-- The holding-register write values built by `prompt_for_operation_args`
(src/modbus.py lines 158 and 176):
`values = [ord(char) for char in ' '.join(data.split())]`. -/
def text_to_register_values (data : String) : List Nat :=
  (pyNormalize data).data.map Char.toNat

/-- Python `int(value)` on a string (src/modbus.py line 89): strips
surrounding whitespace, accepts an optional sign followed by at least one
ASCII digit. Underscore digit separators and non-ASCII digits are not
modelled. -/
def pyParseInt (s : String) : Option Int :=
  let t := ((s.data.dropWhile isPyWs).reverse.dropWhile isPyWs).reverse
  match t with
  | '+' :: ds =>
      if !ds.isEmpty ∧ ds.all Char.isDigit then
        some (Int.ofNat (ds.foldl (fun a c => a * 10 + (c.toNat - 48)) 0))
      else none
  | '-' :: ds =>
      if !ds.isEmpty ∧ ds.all Char.isDigit then
        some (-(Int.ofNat (ds.foldl (fun a c => a * 10 + (c.toNat - 48)) 0)))
      else none
  | ds =>
      if !ds.isEmpty ∧ ds.all Char.isDigit then
        some (Int.ofNat (ds.foldl (fun a c => a * 10 + (c.toNat - 48)) 0))
      else none

/-- `validate_positive_integer` (src/modbus.py lines 87-94): parses the
input with `int(_)`; a parse failure or a parsed value `< 0` raises
`ValueError(f"Invalid {field_name}. Must be a positive integer.")`; any
parsed value `≥ 0` — including 0 — is returned. -/
def validate_positive_integer (value field_name : String) : Except PyError Int :=
  match pyParseInt value with
  | none => .error (.valueError ("Invalid " ++ field_name ++ ". Must be a positive integer."))
  | some i =>
      if i < 0 then
        .error (.valueError ("Invalid " ++ field_name ++ ". Must be a positive integer."))
      else .ok i

/-- A device on which every probe read returns a Modbus exception response
(exception code 1, IllegalFunction). -/
def exceptionDevice : ReadRequest → ProbeResponse := fun _ => .exception 1

/-- A device on which every probe read succeeds with one register value. -/
def allSuccessDevice : ReadRequest → ProbeResponse := fun _ => .success [0]

/-- A client on which the coils read fails (`isError()` true) while the
other three register spaces read successfully. -/
def coilsFailClient : ModbusReadClient where
  read_coils := fun _ _ _ => .failure
  read_discrete_inputs := fun _ _ _ => .success (.pyList (List.replicate 128 (.pyBool false)))
  read_input_registers := fun _ _ _ => .success (.pyList (List.replicate 100 (.pyInt 7)))
  read_holding_registers := fun _ _ _ => .success (.pyList (List.replicate 100 (.pyInt 8)))

/-- Helper: mapping a constant function over a list gives a replicate. -/
theorem list_map_const_replicate {α β : Type} (l : List α) (b : β) :
    l.map (fun _ => b) = List.replicate l.length b := by
  induction l with
  | nil => rfl
  | cons a l ih => simp [List.replicate_succ, ih]

/-- Helper: every one-character Python string is truthy. -/
theorem pyTruthy_singleton_char (c : Char) :
    pyTruthy (.pyStr (String.mk [c])) = true := rfl

/-- Helper: `format_data` on a bit space turns an arbitrary string into a
list of `True` of the string's length, because each character is a nonempty
one-character string and hence truthy. -/
theorem format_data_bits_of_string (rt : String)
    (h : rt = "coils" ∨ rt = "discrete_inputs") (s : String) :
    format_data rt (.pyStr s) = .pyList (List.replicate s.length (.pyBool true)) := by
  have hlen : s.length = s.data.length := rfl
  simp only [format_data, if_pos h, pyIter, List.map_map]
  rw [hlen]
  have : ((fun v => PyVal.pyBool (pyTruthy v)) ∘ fun c => PyVal.pyStr (String.mk [c]))
      = fun _ : Char => PyVal.pyBool true := by
    funext c
    simp [Function.comp, pyTruthy_singleton_char]
  rw [this, list_map_const_replicate]

/-- Helper: a probe response is not an error exactly when it is a normal
success response. -/
theorem isError_false_iff_success (r : ProbeResponse) :
    r.isError = false ↔ ∃ regs, r = .success regs := by
  cases r with
  | success regs => simp [ProbeResponse.isError]
  | exception code => simp [ProbeResponse.isError]
  | ioFailure => simp [ProbeResponse.isError]

/-- Helper: membership in the scanned inclusive unit-ID range. -/
theorem mem_unitRange (from_unit to_unit u : Nat) :
    u ∈ unitRange from_unit to_unit ↔ from_unit ≤ u ∧ u ≤ to_unit := by
  simp only [unitRange, List.mem_map, List.mem_range]
  constructor
  · rintro ⟨i, hi, rfl⟩
    omega
  · rintro ⟨h1, h2⟩
    exact ⟨u - from_unit, by omega, by omega⟩

/-- C1 counterexample: on a device where unit 1 answers the probe with a
Modbus exception response, the scan over [1, 1] yields the empty result set
— the exception response does NOT count as reachable, contrary to the
claim's exception-counts-as-reachable clause. -/
theorem C1_counterexample :
    exceptionDevice (probeRequest 1) = .exception 1 ∧
    (exceptionDevice (probeRequest 1)).isError = true ∧
    scan_modbus_unit_ids 1 1 exceptionDevice = [] ∧
    1 ∉ scan_modbus_unit_ids 1 1 exceptionDevice := by
  refine ⟨rfl, rfl, by decide, by decide⟩

/-- C1 (amended): each probed unit ID issues a read of 1 input register at
address 0 carrying that unit ID, and the unit ID is included in the result
set iff the probe's response is a normal Success response (`not isError()`);
a Modbus exception response is an error response and the unit is excluded. -/
theorem C1_scan_reachable_iff_success (from_unit to_unit u : Nat)
    (device : ReadRequest → ProbeResponse) :
    (u ∈ scan_modbus_unit_ids from_unit to_unit device ↔
      (from_unit ≤ u ∧ u ≤ to_unit ∧ ∃ regs, device (probeRequest u) = .success regs)) ∧
    probeRequest u = ⟨"input_registers", 0, 1, u⟩ ∧
    (∀ code, device (probeRequest u) = .exception code →
      u ∉ scan_modbus_unit_ids from_unit to_unit device) := by
  have hiff : u ∈ scan_modbus_unit_ids from_unit to_unit device ↔
      (from_unit ≤ u ∧ u ≤ to_unit ∧ ∃ regs, device (probeRequest u) = .success regs) := by
    rw [scan_modbus_unit_ids, List.mem_filter, mem_unitRange]
    rw [Bool.not_eq_true', isError_false_iff_success, and_assoc]
  refine ⟨hiff, rfl, ?_⟩
  intro code hc hmem
  obtain ⟨-, -, regs, hs⟩ := hiff.mp hmem
  rw [hc] at hs
  cases hs

/-- C1 witness: instantiating the amended theorem on the all-exception
device shows unit 2 is not reported reachable by a scan of [1, 5]. -/
theorem C1_scan_reachable_iff_success_witness :
    2 ∉ scan_modbus_unit_ids 1 5 exceptionDevice :=
  (C1_scan_reachable_iff_success 1 5 2 exceptionDevice).2.2 1 rfl

/-- Helper: a scheduler step can only increase the number of in-flight
probes when the current number is strictly below the gate capacity. -/
theorem sched_step_enters_only_below_cap (cap : Nat) (s t : SchedState)
    (hstep : SchedStep cap s t) (hlt : s.inFlight < t.inFlight) :
    s.inFlight < cap := by
  cases hstep with
  | enter w i f hcap => exact hcap
  | finish w i f => simp at hlt

/-- Helper: in every reachable scheduler state, at most `cap` probes are in
flight. -/
theorem sched_reachable_inFlight_le (cap n : Nat) (s : SchedState)
    (h : SchedReachable cap n s) : s.inFlight ≤ cap := by
  induction h with
  | init => exact Nat.zero_le cap
  | step s1 t1 hs hstep ih =>
      cases hstep with
      | enter w i f hcap => exact hcap
      | finish w i f => simp at ih ⊢; omega

/-- C5: during a scan of `n` probe tasks gated by a semaphore of capacity
`cap`, every reachable scheduler state has at most `cap` probes in flight,
a step lets a new probe into the gate (where it opens its connection)
only when a slot is free, and the configured capacity defaults to 10. -/
theorem C5_concurrency_bounded (cap n : Nat) (s : SchedState)
    (h : SchedReachable cap n s) :
    s.inFlight ≤ cap ∧
    (∀ t, SchedStep cap s t → s.inFlight < t.inFlight → s.inFlight < cap) ∧
    default_max_concurrent_tasks = 10 :=
  ⟨sched_reachable_inFlight_le cap n s h,
   fun t hstep hlt => sched_step_enters_only_below_cap cap s t hstep hlt, rfl⟩

/-- C5 witness: with capacity 3 and 10 probe tasks, the state reached after
three gate entries has exactly 3 probes in flight, within the bound. -/
theorem C5_concurrency_bounded_witness :
    (⟨7, 3, 0⟩ : SchedState).inFlight ≤ 3 ∧
    (∀ t, SchedStep 3 ⟨7, 3, 0⟩ t →
      (⟨7, 3, 0⟩ : SchedState).inFlight < t.inFlight →
      (⟨7, 3, 0⟩ : SchedState).inFlight < 3) ∧
    default_max_concurrent_tasks = 10 := by
  have h1 : SchedReachable 3 10 ⟨9, 1, 0⟩ :=
    .step _ _ .init (.enter 9 0 0 (by decide))
  have h2 : SchedReachable 3 10 ⟨8, 2, 0⟩ :=
    .step _ _ h1 (.enter 8 1 0 (by decide))
  have h3 : SchedReachable 3 10 ⟨7, 3, 0⟩ :=
    .step _ _ h2 (.enter 7 2 0 (by decide))
  exact C5_concurrency_bounded 3 10 ⟨7, 3, 0⟩ h3

/-- C6: a user interrupt delivered after `k` probe completions is caught
(the scan returns normally, no unhandled failure): the returned results are
exactly those accumulated by the first `k` completed probes — probes not yet
completed contribute nothing — and whenever the accumulated results are
nonempty they are persisted unchanged. -/
theorem C6_interrupt_preserves_results (completed : List Nat) (k : Nat)
    (device : ReadRequest → ProbeResponse) :
    scan_interrupted completed k device =
      scan_interrupted (completed.take k) k device ∧
    (∀ u ∈ scan_interrupted completed k device, u ∈ completed.take k) ∧
    (scan_interrupted completed k device ≠ [] →
      scan_persisted (scan_interrupted completed k device) =
        some (scan_interrupted completed k device)) := by
  refine ⟨?_, ?_, ?_⟩
  · simp [scan_interrupted, List.take_take]
  · intro u hu
    exact (List.mem_filter.mp hu).1
  · intro hne
    rw [scan_persisted, if_neg]
    simpa using hne

/-- C6 witness: interrupting a 10-probe scan after the probes of units 2 and
4 completed (both successfully) still returns and persists exactly those 2
results. -/
theorem C6_interrupt_preserves_results_witness :
    scan_interrupted [2, 4, 1, 3, 5, 6, 7, 8, 9, 10] 2 allSuccessDevice = [2, 4] ∧
    scan_persisted (scan_interrupted [2, 4, 1, 3, 5, 6, 7, 8, 9, 10] 2 allSuccessDevice) =
      some (scan_interrupted [2, 4, 1, 3, 5, 6, 7, 8, 9, 10] 2 allSuccessDevice) :=
  ⟨by decide,
   (C6_interrupt_preserves_results [2, 4, 1, 3, 5, 6, 7, 8, 9, 10] 2
      allSuccessDevice).2.2 (by decide)⟩

/-- C3: evaluating `read_all_data` at the failing input (coils read errors,
the other three spaces succeed) shows the other three spaces are still read
and reported — a failure in one space does not abort the others — but the
coils record is a list of 19 `True` booleans (the error-description string
"Error reading coils" coerced character-wise by `format_data`), not an error
description, contradicting the claim for the bit spaces. -/
theorem C3_read_all_error_record_eval :
    read_all_data coilsFailClient 1 =
      [("Coils", .pyList (List.replicate 19 (.pyBool true))),
       ("Discrete Inputs", .pyList (List.replicate 128 (.pyBool false))),
       ("Input Registers", .pyList (List.replicate 100 (.pyInt 7))),
       ("Holding Registers", .pyList (List.replicate 100 (.pyInt 8)))] := by
  rfl

/-- C10: a failed bit-space read inside `read_all_data` substitutes an
error-description string which `format_data` maps character-wise through
`bool(_)`; every one-character string is truthy, so the exported record is a
list of `True` of the message's length — the same shape (`pyList` of
`pyBool`) as a successfully read bit list, which `format_data` passes
through unchanged. -/
theorem C10_error_string_formats_as_true_bits (s : String)
    (client : ModbusReadClient) (u : Nat) (bs : List Bool) :
    format_data "coils" (.pyStr s) =
      .pyList (List.replicate s.length (.pyBool true)) ∧
    format_data "discrete_inputs" (.pyStr s) =
      .pyList (List.replicate s.length (.pyBool true)) ∧
    format_data "coils" (.pyList (bs.map PyVal.pyBool)) =
      .pyList (bs.map PyVal.pyBool) ∧
    (client.read_coils 0 128 u = .failure →
      (read_all_data client u).head? =
        some ("Coils", .pyList (List.replicate 19 (.pyBool true)))) := by
  refine ⟨format_data_bits_of_string _ (Or.inl rfl) s,
          format_data_bits_of_string _ (Or.inr rfl) s, ?_, ?_⟩
  · simp [format_data, pyIter, List.map_map, Function.comp, pyTruthy]
  · intro h
    unfold read_all_data
    rw [h]
    rfl

/-- C7: for every register type other than `"coils"` and
`"holding_registers"`, `write_registers` fails with the typed ValueError and
produces no device write effect, and `validate_register_type` for a write
returns the typed error at once (it is a total function that neither loops
nor prompts). -/
theorem C7_write_rejects_other_register_types (register_type : String)
    (address : Nat) (values : PyVal) (unit_id : Nat)
    (h1 : register_type ≠ "coils") (h2 : register_type ≠ "holding_registers") :
    write_registers register_type address values unit_id =
      .error (.valueError "Can only write to coils or holding registers") ∧
    (∀ e, write_registers register_type address values unit_id ≠ .ok e) ∧
    validate_register_type register_type "write" =
      .error (.valueError "Invalid register type. Must be one of: coils, holding_registers") := by
  have hw : write_registers register_type address values unit_id =
      .error (.valueError "Can only write to coils or holding registers") := by
    simp [write_registers, h1, h2]
  refine ⟨hw, ?_, ?_⟩
  · intro e he
    rw [hw] at he
    exact Except.noConfusion he
  · simp [validate_register_type, h1, h2]

/-- C7 witness: writing to the read-only input-register space is rejected
with the typed error. -/
theorem C7_write_rejects_other_register_types_witness :
    write_registers "input_registers" 0 (.pyList []) 1 =
      .error (.valueError "Can only write to coils or holding registers") ∧
    validate_register_type "input_registers" "write" =
      .error (.valueError "Invalid register type. Must be one of: coils, holding_registers") :=
  ⟨(C7_write_rejects_other_register_types "input_registers" 0 (.pyList []) 1
      (by decide) (by decide)).1,
   (C7_write_rejects_other_register_types "input_registers" 0 (.pyList []) 1
      (by decide) (by decide)).2.2⟩

/-- C8 counterexample: on the input "a  b" (two spaces), the written value
sequence is [97, 32, 98] — 3 elements for a 4-character input — because the
script first collapses whitespace runs via `' '.join(data.split())`; so the
claim's one-element-per-input-character reading is false. -/
theorem C8_counterexample :
    text_to_register_values "a  b" = [97, 32, 98] ∧
    (text_to_register_values "a  b").length = 3 ∧
    ("a  b").data.length = 4 := by
  refine ⟨by decide, by decide, by decide⟩

/-- C8 (amended): the value sequence written for text has exactly one u16
element per character of the whitespace-normalized input
`' '.join(data.split())`, equal to that character's code point, and for
ASCII characters (code point < 128) the high byte of the register value is
zero. -/
theorem C8_one_register_per_normalized_character (data : String) (i : Nat) :
    (text_to_register_values data).length = (pyNormalize data).length ∧
    (text_to_register_values data)[i]? =
      ((pyNormalize data).data[i]?).map Char.toNat ∧
    (∀ v ∈ text_to_register_values data, v < 128 → v / 256 = 0) := by
  refine ⟨?_, ?_, ?_⟩
  · show ((pyNormalize data).data.map Char.toNat).length = (pyNormalize data).length
    rw [List.length_map]
    rfl
  · exact List.getElem?_map Char.toNat (pyNormalize data).data i
  · intro v hv hlt
    omega

/-- C8 witness: on the already-normalized input "havok", one register value
per character, each the ASCII code point with high byte zero. -/
theorem C8_one_register_per_normalized_character_witness :
    text_to_register_values "havok" = [104, 97, 118, 111, 107] ∧
    (text_to_register_values "havok")[0]? =
      ((pyNormalize "havok").data[0]?).map Char.toNat ∧
    (104 : Nat) / 256 = 0 :=
  ⟨by decide,
   (C8_one_register_per_normalized_character "havok" 0).2.1,
   (C8_one_register_per_normalized_character "havok" 0).2.2 104 (by decide) (by decide)⟩

/-- C9: `validate_positive_integer` returns every parsed non-negative
integer — including 0 — and raises ValueError exactly when the input parses
to a negative integer or does not parse at all, even though the error
message demands "a positive integer". -/
theorem C9_validate_positive_integer_accepts_zero (value field_name : String)
    (i : Int) :
    (pyParseInt value = some i → 0 ≤ i →
      validate_positive_integer value field_name = .ok i) ∧
    (validate_positive_integer value field_name =
        .error (.valueError ("Invalid " ++ field_name ++ ". Must be a positive integer.")) ↔
      (pyParseInt value = none ∨ ∃ j, pyParseInt value = some j ∧ j < 0)) ∧
    validate_positive_integer "0" field_name = .ok 0 := by
  refine ⟨?_, ⟨?_, ?_⟩, rfl⟩
  · intro hp hge
    simp only [validate_positive_integer, hp]
    rw [if_neg (not_lt.mpr hge)]
  · intro he
    rcases hp : pyParseInt value with _ | j
    · exact Or.inl rfl
    · right
      refine ⟨j, rfl, ?_⟩
      by_contra hge
      push_neg at hge
      simp only [validate_positive_integer, hp] at he
      rw [if_neg (not_lt.mpr hge)] at he
      exact Except.noConfusion he
  · intro h
    rcases h with hnone | ⟨j, hj, hneg⟩
    · simp [validate_positive_integer, hnone]
    · simp [validate_positive_integer, hj, hneg]

/-- C9 witness: "0" is accepted and returned as 0, while "-3" is rejected
with the positive-integer error message. -/
theorem C9_validate_positive_integer_accepts_zero_witness :
    validate_positive_integer "0" "address" = .ok 0 ∧
    validate_positive_integer "-3" "address" =
      .error (.valueError ("Invalid " ++ "address" ++ ". Must be a positive integer.")) :=
  ⟨(C9_validate_positive_integer_accepts_zero "0" "address" 0).1 (by decide) (by decide),
   ((C9_validate_positive_integer_accepts_zero "-3" "address" 0).2.1).mpr
     (Or.inr ⟨-3, by decide, by decide⟩)⟩

/-- Helper: the two big-endian bytes of a value below 2^16 recompose to it. -/
theorem u16be_recompose (n : Nat) (h : n < 65536) :
    n / 256 % 256 * 256 + n % 256 = n := by
  omega

/-- Helper: decoding a frame produced by `frameBytes` recovers the header
fields and the address, for in-range fields and a payload that keeps the
MBAP length field within u16. -/
theorem decodeFrame_frameBytes (tid uid fc addr : Nat) (pl : Payload)
    (htid : tid < 65536) (hfc : fc < 128) (haddr : addr < 65536)
    (hplen : (payloadBytes pl).length ≤ 65531) :
    decodeFrame (frameBytes ⟨tid, uid, fc, addr, pl⟩) =
      .ok (.normal ⟨tid, uid, fc, addr⟩) := by
  have hlen4 : 4 + (payloadBytes pl).length < 65536 := by omega
  simp only [frameBytes, u16be, List.cons_append, List.nil_append]
  simp only [decodeFrame, List.length_cons]
  rw [u16be_recompose _ hlen4]
  rw [if_neg (by omega)]
  rw [if_neg (by omega)]
  rw [u16be_recompose tid htid, u16be_recompose addr haddr]

/-- C2: encoding a read request whose quantity exceeds the per-request limit
(2000 for coils/discrete inputs, 125 for registers) fails with
InvalidArgument — no frame is produced, so nothing is sent or truncated —
while ReadHoldingRegisters with quantity 125 encodes successfully and
quantity 126 fails with InvalidArgument. -/
theorem C2_oversized_quantity_rejected (tid uid fc addr q : Nat) :
    (((fc = 1 ∨ fc = 2) ∧ 2000 < q) ∨ ((fc = 3 ∨ fc = 4) ∧ 125 < q) →
      encodeRequest ⟨tid, uid, fc, addr, .readQuantity q⟩ = .error .invalidArgument) ∧
    encodeOk ⟨0, 1, 3, 0, .readQuantity 125⟩ = true ∧
    encodeRequest ⟨0, 1, 3, 0, .readQuantity 126⟩ = .error .invalidArgument := by
  refine ⟨?_, by decide, by rfl⟩
  intro h
  have hq : quantityInBounds fc q = false := by
    rcases h with ⟨h1, h2⟩ | ⟨h1, h2⟩
    · rw [quantityInBounds, if_pos h1]
      simp only [decide_eq_false_iff_not]
      omega
    · rcases h1 with rfl | rfl <;>
        · simp only [quantityInBounds]
          norm_num
          omega
  simp [encodeRequest, hq]

/-- C2 witness: a ReadCoils request for 2001 coils is rejected with
InvalidArgument. -/
theorem C2_oversized_quantity_rejected_witness :
    encodeRequest ⟨0, 1, 1, 0, .readQuantity 2001⟩ = .error .invalidArgument :=
  (C2_oversized_quantity_rejected 0 1 1 0 2001).1 (Or.inl ⟨Or.inl rfl, by decide⟩)

/-- C4: for every valid request, decoding the frame produced by encoding it
recovers the original transactionId, unitId, functionCode and address. -/
theorem C4_encode_decode_roundtrip (req : Request) (h : validRequest req) :
    ∃ bytes, encodeRequest req = .ok bytes ∧
      decodeFrame bytes =
        .ok (.normal ⟨req.transactionId, req.unitId, req.functionCode, req.address⟩) := by
  obtain ⟨tid, uid, fc, addr, pl⟩ := req
  obtain ⟨htid, huid, hfc1, hfc2, haddr, hplen, hpay⟩ := h
  have henc : encodeRequest ⟨tid, uid, fc, addr, pl⟩ =
      .ok (frameBytes ⟨tid, uid, fc, addr, pl⟩) := by
    cases pl with
    | readQuantity q => simp_all [encodeRequest]
    | writeCoilValues vs => rfl
    | writeRegisterValues vs => rfl
  exact ⟨frameBytes ⟨tid, uid, fc, addr, pl⟩, henc,
    decodeFrame_frameBytes tid uid fc addr pl htid hfc2 haddr hplen⟩

/-- C4 witness: the round trip at a concrete valid ReadHoldingRegisters
request with transactionId 258, unitId 17, address 515, quantity 2. -/
theorem C4_encode_decode_roundtrip_witness :
    ∃ bytes, encodeRequest ⟨258, 17, 3, 515, .readQuantity 2⟩ = .ok bytes ∧
      decodeFrame bytes = .ok (.normal ⟨258, 17, 3, 515⟩) :=
  C4_encode_decode_roundtrip ⟨258, 17, 3, 515, .readQuantity 2⟩
    ⟨by decide, by decide, by decide, by decide, by decide, by decide, by decide⟩

/-- C10 witness: on the client whose coils read fails, the exported coils
record is the 19-element all-True list. -/
theorem C10_error_string_formats_as_true_bits_witness :
    (read_all_data coilsFailClient 1).head? =
      some ("Coils", .pyList (List.replicate 19 (.pyBool true))) :=
  (C10_error_string_formats_as_true_bits "x" coilsFailClient 1 []).2.2.2 rfl
